import Mathlib

/-!
Verification of the toki compiler pipeline (toki.c): lexical scanner,
token classifier, phrase parser and per-sentence code generator.

The definitions below are a shallow embedding of the C source.  C strings
are `String`/`List Char`; the scanner's pointer pair (`q`..`p`) becomes an
explicit accumulation buffer; heap buffers written through `lines[size]`
followed by `++size` become list appends; a `fprintf`+`exit(1)` (and a
write through a NULL pointer, which aborts the process) becomes `none`.
-/

set_option maxHeartbeats 1000000

namespace Toki

/- Character classification as used via <ctype.h> under the "C" locale,
   on ASCII inputs. -/

def c_isspace (c : Char) : Bool :=
  decide (c.toNat = 32) || decide (9 ≤ c.toNat ∧ c.toNat ≤ 13)

def c_iscntrl (c : Char) : Bool :=
  decide (c.toNat < 32) || decide (c.toNat = 127)

def c_isalpha (c : Char) : Bool :=
  decide (65 ≤ c.toNat ∧ c.toNat ≤ 90) || decide (97 ≤ c.toNat ∧ c.toNat ≤ 122)

def c_isdigit (c : Char) : Bool :=
  decide (48 ≤ c.toNat ∧ c.toNat ≤ 57)

def c_isalnum (c : Char) : Bool :=
  c_isalpha c || c_isdigit c

/- Vocabulary tables (toki.c lines 43-100).  The C enum values are the
   indices into the corresponding string arrays, so keywords/separators
   are carried as `Nat` indices, exactly as the C stores the enum in the
   token's value field. -/

def KEYWORD_E : Nat := 0
def KEYWORD_O : Nat := 1
def KEYWORD_SITELEN : Nat := 2
def KEYWORD_TOKI : Nat := 3
def KEYWORD_LI : Nat := 4
def KEYWORD_KAMA : Nat := 5
def KEYWORD_SAMA : Nat := 6
def KEYWORD_SIN : Nat := 7

def KEYWORDS : List String :=
  ["e", "o", "sitelen", "toki", "li", "kama", "sama", "sin"]

def SEPARATOR_PERIOD : Nat := 0

def SEPARATORS : List String := ["."]

def LITERAL_STRING : Nat := 0

/- Token (toki.c lines 111-141).  The C struct packs a `TokenType` tag
   with an untyped `value` buffer; the embedding is the corresponding sum
   type.  A literal's value buffer holds a `Literal` tag followed by the
   payload bytes, hence the two fields of `literal`. -/

inductive TokenType where
  | TOKEN_NULL
  | TOKEN_IDENTIFIER
  | TOKEN_KEYWORD
  | TOKEN_SEPARATOR
  | TOKEN_LITERAL
  | TOKEN_OPERATOR
  deriving DecidableEq, Repr

inductive Token where
  | null
  | identifier (value : String)
  | keyword (value : Nat)
  | separator (value : Nat)
  | literal (littype : Nat) (value : String)
  | operator (value : Nat)
  deriving DecidableEq, Repr

def tokType : Token → TokenType
  | .null => .TOKEN_NULL
  | .identifier _ => .TOKEN_IDENTIFIER
  | .keyword _ => .TOKEN_KEYWORD
  | .separator _ => .TOKEN_SEPARATOR
  | .literal _ _ => .TOKEN_LITERAL
  | .operator _ => .TOKEN_OPERATOR

def TOKEN_DEFAULT : Token := Token.null

/- Helper predicates (toki.c lines 254-267). -/

def is_keyword (t : Token) (kw : Nat) : Bool :=
  match t with
  | .keyword v => v == kw
  | _ => false

def is_seperator (t : Token) (sp : Nat) : Bool :=
  match t with
  | .separator v => v == sp
  | _ => false

def is_literal (t : Token) (lt : Nat) : Bool :=
  match t with
  | .literal v _ => v == lt
  | _ => false

/- Scanner (toki.c lines 275-387).  The C loop `while (*(p-1) != '\0')`
   processes every character of the NUL-terminated input, including the
   terminating NUL itself (which is a control character, so it flushes a
   pending word and is skipped in idle mode); the embedding appends that
   NUL explicitly and recurses over the character list.  The span
   `q`..`p` of the current lexeme is the accumulator `buf`.  The `else`
   arm of idle mode is the fatal "Unknown lexeme" error, i.e. `none`. -/

inductive ScanMode where
  | UNKNOWN
  | TEXT
  | STRING
  | END
  deriving DecidableEq, Repr

def scanAux : ScanMode → List Char → List Char → Option (List String)
  | _, _, [] => some []
  | .UNKNOWN, buf, c :: rest =>
    if c_isspace c || c_iscntrl c then
      scanAux .UNKNOWN buf rest
    else if c_isalpha c then
      scanAux .TEXT [c] rest
    else if c = '"' then
      scanAux .STRING [c] rest
    else if c = '.' then
      (scanAux .UNKNOWN buf rest).map (fun ls => "." :: ls)
    else
      none
  | .TEXT, buf, c :: rest =>
    if c_isspace c || c_iscntrl c then
      (scanAux .UNKNOWN [] rest).map (fun ls => String.mk buf :: ls)
    else if c = '.' then
      (scanAux .UNKNOWN [] rest).map (fun ls => String.mk buf :: "." :: ls)
    else
      scanAux .TEXT (buf ++ [c]) rest
  | .STRING, buf, c :: rest =>
    if c = '\\' then
      match rest with
      | [] => some []
      | d :: rest2 => scanAux .STRING (buf ++ [c, d]) rest2
    else if c = '"' then
      (scanAux .UNKNOWN [] rest).map (fun ls => String.mk (buf ++ [c]) :: ls)
    else
      scanAux .STRING (buf ++ [c]) rest
  | .END, buf, _ :: rest => scanAux .END buf rest

def scan (input : List Char) : Option (List String) :=
  scanAux .UNKNOWN [] (input ++ ['\x00'])

/- Classifier (toki.c lines 393-500).  Per lexeme, in source order:
   keyword table, identifier shape, string literal, separator table.
   A lexeme matching none of these leaves `curr.type == TOKEN_NULL` and
   the loop body simply falls through to the next lexeme: the lexeme is
   skipped without any error, hence `classify` returns `none` and
   `evaluate` is a `filterMap`. -/

def is_ident_shape (lex : String) : Bool :=
  match lex.toList with
  | [] => false
  | c :: _ => c_isalpha c && lex.toList.all (fun d => c_isalnum d || d == '_')

def classify (lex : String) : Option Token :=
  match KEYWORDS.findIdx? (fun kw => kw == lex) with
  | some kw => some (.keyword kw)
  | none =>
    if is_ident_shape lex then
      some (.identifier lex)
    else if lex.toList.head? == some '"' then
      some (.literal LITERAL_STRING
        (String.mk ((lex.toList.drop 1).takeWhile (fun c => c != '"'))))
    else
      match SEPARATORS.findIdx? (fun sp => sp == lex) with
      | some sp => some (.separator sp)
      | none => none

def evaluate (input : List String) : List Token :=
  input.filterMap classify

/- Phrase structures (toki.c lines 161-233).  A C `TokenList` is a
   pointer/size pair, embedded as a plain list; a `PrepPhraseList`'s
   `list` pointer can be NULL (the default), embedded as `Option`. -/

structure NounPhraseWithoutPrep where
  noun : Token
  adjp : List Token
  deriving DecidableEq, Repr

structure PrepPhrase where
  prep : Token
  np : NounPhraseWithoutPrep
  deriving DecidableEq, Repr

structure PrepPhraseList where
  list : Option (List PrepPhrase)
  size : Nat
  deriving DecidableEq, Repr

structure NounPhrase where
  noun : Token
  adjp : List Token
  ppl : PrepPhraseList
  deriving DecidableEq, Repr

structure VerbPhrase where
  verb : Token
  advp : List Token
  obj : NounPhrase
  deriving DecidableEq, Repr

structure Sentence where
  subj : NounPhrase
  pred : VerbPhrase
  deriving DecidableEq, Repr

def NOUNPHRASEWITHOUTPREP_DEFAULT : NounPhraseWithoutPrep :=
  { noun := TOKEN_DEFAULT, adjp := [] }

def PREPPHRASELIST_DEFAULT : PrepPhraseList :=
  { list := none, size := 0 }

def NOUNPHRASE_DEFAULT : NounPhrase :=
  { noun := TOKEN_DEFAULT, adjp := [], ppl := PREPPHRASELIST_DEFAULT }

def VERBPHRASE_DEFAULT : VerbPhrase :=
  { verb := TOKEN_DEFAULT, advp := [], obj := NOUNPHRASE_DEFAULT }

def SENTENCE_DEFAULT : Sentence :=
  { subj := NOUNPHRASE_DEFAULT, pred := VERBPHRASE_DEFAULT }

/- Parser (toki.c lines 515-720).  Each loop iteration first resolves
   the `head`/`tail`/`ppl` pointer trio from the current mode, then
   dispatches on the token.  `flush` is the common buffer flush
   (`size>=1` writes the head, `size>=2` writes the tail with the rest).
   In `PHRASE_PREP` mode the pointer trio is computed from a `ppl`
   pointer that is NULL or stale (it was nulled in the previous
   iteration), so any flush there would write through an invalid
   pointer; that mode is in fact unreachable, because entering it
   requires the `sin` branch's write through the never-allocated
   prepositional list (see `pplPrepWrite`), which already aborts. -/

inductive Mode where
  | PHRASE_EN
  | PHRASE_O
  | PHRASE_E
  | PHRASE_PREP
  deriving DecidableEq, Repr

structure PState where
  mode : Mode
  s : Sentence
  buffer : List Token
  deriving DecidableEq, Repr

def PSTATE_INIT : PState :=
  { mode := .PHRASE_EN, s := SENTENCE_DEFAULT, buffer := [] }

def flushHead (old : Token) (b : List Token) : Token :=
  match b with
  | [] => old
  | t :: _ => t

def flushTail (old : List Token) (b : List Token) : List Token :=
  if 2 ≤ b.length then b.drop 1 else old

def flush : Mode → Sentence → List Token → Option Sentence
  | .PHRASE_EN, s, b =>
    some { s with subj := { s.subj with
      noun := flushHead s.subj.noun b, adjp := flushTail s.subj.adjp b } }
  | .PHRASE_O, s, b =>
    some { s with pred := { s.pred with
      verb := flushHead s.pred.verb b, advp := flushTail s.pred.advp b } }
  | .PHRASE_E, s, b =>
    some { s with pred := { s.pred with obj := { s.pred.obj with
      noun := flushHead s.pred.obj.noun b, adjp := flushTail s.pred.obj.adjp b } } }
  | .PHRASE_PREP, _, _ => none

/- The `sin` branch's own flush differs from `flush`: the head is
   written through the mode's head pointer, but the `size>=2` case
   writes `s.subj.noun`/`s.subj.adjp` directly (toki.c lines 634-640),
   regardless of the current mode. -/

def flushHeadSin : Mode → Sentence → Token → Option Sentence
  | .PHRASE_EN, s, t => some { s with subj := { s.subj with noun := t } }
  | .PHRASE_O, s, t => some { s with pred := { s.pred with verb := t } }
  | .PHRASE_E, s, t =>
    some { s with pred := { s.pred with obj := { s.pred.obj with noun := t } } }
  | .PHRASE_PREP, _, _ => none

/- `ppl->list[ppl->size].prep = *p` (toki.c line 642).  The `ppl`
   pointer selected by the mode points at a `PrepPhraseList` whose
   `list` member is never allocated anywhere in `parse` (and whose
   `size` is never incremented), so the write dereferences NULL and
   aborts: `none`.  The `some` arm models an in-place element write for
   the (unreachable) allocated case.  In `PHRASE_O` mode the branch has
   already errored out, and in `PHRASE_PREP` mode the local `ppl`
   variable itself is NULL. -/

def pplPrepWrite : Mode → Sentence → Token → Option Sentence
  | .PHRASE_EN, s, t =>
    match s.subj.ppl.list with
    | none => none
    | some l =>
      some { s with subj := { s.subj with ppl := { s.subj.ppl with
        list := some (l.set s.subj.ppl.size
          { prep := t, np := NOUNPHRASEWITHOUTPREP_DEFAULT }) } } }
  | .PHRASE_E, s, t =>
    match s.pred.obj.ppl.list with
    | none => none
    | some l =>
      some { s with pred := { s.pred with obj := { s.pred.obj with
        ppl := { s.pred.obj.ppl with
          list := some (l.set s.pred.obj.ppl.size
            { prep := t, np := NOUNPHRASEWITHOUTPREP_DEFAULT }) } } } }
  | .PHRASE_O, _, _ => none
  | .PHRASE_PREP, _, _ => none

/- One iteration of the parser loop.  Emitted sentences are returned
   alongside the successor state (the C appends them to `sl`). -/

def parseStep (st : PState) (t : Token) : Option (PState × List Sentence) :=
  if is_keyword t KEYWORD_O || is_keyword t KEYWORD_LI then
    if st.mode = .PHRASE_E then
      none  -- "Unimplemented: cannot use multiple predicates"
    else if st.mode = .PHRASE_O then
      none  -- "Unimplemented: cannot conjoin predicates"
    else
      (flush st.mode st.s st.buffer).map
        (fun s2 => ({ mode := .PHRASE_O, s := s2, buffer := [] }, []))
  else if is_keyword t KEYWORD_SIN then
    if st.mode = .PHRASE_O then
      none  -- "Prepositions not allowed after verb phrases."
    else if st.buffer.length = 0 then
      none  -- "Monadic 'sin' is not allowed."
    else
      match st.buffer with
      | [] => none
      | b0 :: brest =>
        match flushHeadSin st.mode st.s b0 with
        | none => none
        | some s1 =>
          let s2 := if 2 ≤ st.buffer.length then
              { s1 with subj := { s1.subj with noun := b0, adjp := brest } }
            else s1
          match pplPrepWrite st.mode s2 t with
          | none => none
          | some s3 => some ({ mode := .PHRASE_PREP, s := s3, buffer := [] }, [])
  else if is_keyword t KEYWORD_E then
    if st.mode = .PHRASE_EN then
      none  -- "Error, invalid word order SO"
    else
      (flush st.mode st.s st.buffer).map
        (fun s2 => ({ mode := .PHRASE_E, s := s2, buffer := [] }, []))
  else if is_seperator t SEPARATOR_PERIOD then
    (flush st.mode st.s st.buffer).map
      (fun s2 => ({ mode := .PHRASE_EN, s := SENTENCE_DEFAULT, buffer := [] }, [s2]))
  else
    some ({ mode := st.mode, s := st.s, buffer := st.buffer ++ [t] }, [])

def parseRun : PState → List Token → Option (PState × List Sentence)
  | st, [] => some (st, [])
  | st, t :: ts =>
    match parseStep st t with
    | none => none
    | some (st2, em) => (parseRun st2 ts).map (fun r => (r.1, em ++ r.2))

def parse (input : List Token) : Option (List Sentence) :=
  (parseRun PSTATE_INIT input).map (fun r => r.2)

/- A token that triggers none of the parser's mode-switch branches and is
   therefore appended to the pending phrase buffer (the final `else` of the
   loop body). -/

def buffered_token (t : Token) : Bool :=
  !(is_keyword t KEYWORD_O || is_keyword t KEYWORD_LI || is_keyword t KEYWORD_SIN ||
    is_keyword t KEYWORD_E || is_seperator t SEPARATOR_PERIOD)

/- Code generator (toki.c lines 728-842).  The two emission buffers; a
   line is `Option String`, where `none` models a malloc'd 81-byte line
   buffer that was appended without ever being written by `sprintf`
   (this happens in the assignment case for a non-string-literal
   object). -/

structure SectionData where
  lines : List (Option String)
  literals : Nat
  deriving DecidableEq, Repr

structure SectionText where
  lines : List (Option String)
  deriving DecidableEq, Repr

/- Reading a token's `value` buffer as a `char *`: the identifier name,
   or the literal payload past the type tag.  Callers guard this with
   the type tests, as the C does. -/

def tokCharData : Token → String
  | .identifier v => v
  | .literal _ v => v
  | _ => ""

def compile_sentence (s : Sentence) (data : SectionData) (text : SectionText) :
    Option (SectionData × SectionText) :=
  if tokType s.subj.noun = .TOKEN_NULL then
    if tokType s.pred.verb = .TOKEN_NULL then
      none  -- "Missing verb in sentence."
    else if is_keyword s.pred.verb KEYWORD_SITELEN then
      if tokType s.pred.obj.noun = .TOKEN_IDENTIFIER then
        some (data,
          { lines := text.lines ++
              [some ("push    VARIABLE_" ++ tokCharData s.pred.obj.noun),
               some "call    _printf",
               some "add     esp, 4"] })
      else if is_literal s.pred.obj.noun LITERAL_STRING then
        some ({ lines := data.lines ++
                  [some ("LITERAL_" ++ toString data.literals ++ " db \"" ++
                    tokCharData s.pred.obj.noun ++ "\", 0")],
                literals := data.literals + 1 },
              { lines := text.lines ++
                  [some ("push    LITERAL_" ++ toString data.literals),
                   some "call    _printf",
                   some "add     esp, 4"] })
      else
        none  -- "Incorrect object for verb 'sitelen'."
    else
      -- the if-chain has no final else: nothing is emitted
      some (data, text)
  else
    if tokType s.pred.verb = .TOKEN_NULL then
      some (data, text)  -- lone NP, do nothing
    else if is_keyword s.pred.verb KEYWORD_KAMA then
      if tokType s.subj.noun ≠ .TOKEN_IDENTIFIER then
        none  -- "Subject must be identifier in assignment."
      else if tokType s.pred.obj.noun = .TOKEN_NULL then
        none  -- "Assignment statement needs object."
      else
        some ({ data with lines := data.lines ++
                 [if is_literal s.pred.obj.noun LITERAL_STRING then
                    some ("VARIABLE_" ++ tokCharData s.subj.noun ++ " db \"" ++
                      tokCharData s.pred.obj.noun ++ "\", 0")
                  else
                    none] },  -- sprintf skipped: the appended line is uninitialized
              text)
    else
      -- again no final else: nothing is emitted
      some (data, text)

/-! Guard facts about the <ctype.h> character classes. -/

theorem c_isdigit_guards (c : Char) (h : c_isdigit c = true) :
    c_isspace c = false ∧ c_iscntrl c = false ∧ c_isalpha c = false ∧
    c ≠ '"' ∧ c ≠ '.' := by
  simp only [c_isdigit, decide_eq_true_eq] at h
  refine ⟨?_, ?_, ?_, ?_, ?_⟩
  · simp only [c_isspace, Bool.or_eq_false_iff, decide_eq_false_iff_not]
    constructor <;> omega
  · simp only [c_iscntrl, Bool.or_eq_false_iff, decide_eq_false_iff_not]
    constructor <;> omega
  · simp only [c_isalpha, Bool.or_eq_false_iff, decide_eq_false_iff_not]
    constructor <;> omega
  · intro h2
    subst h2
    exact absurd h (by decide)
  · intro h2
    subst h2
    exact absurd h (by decide)

theorem c_isalpha_guards (c : Char) (h : c_isalpha c = true) :
    c_isspace c = false ∧ c_iscntrl c = false ∧ c ≠ '.' := by
  simp only [c_isalpha, Bool.or_eq_true, decide_eq_true_eq] at h
  refine ⟨?_, ?_, ?_⟩
  · simp only [c_isspace, Bool.or_eq_false_iff, decide_eq_false_iff_not]
    constructor <;> omega
  · simp only [c_iscntrl, Bool.or_eq_false_iff, decide_eq_false_iff_not]
    constructor <;> omega
  · intro h2
    subst h2
    rcases h with h | h <;> exact absurd h (by decide)

/-- C1: compiling the source text `o sitelen e "toki!".` through scan,
evaluate, parse and compile_sentence produces a data section with exactly
one appended literal declaration whose payload is the bytes `toki!`,
labelled with the data section's literal counter (which is incremented),
and a text section with exactly three appended lines: a push of that
literal's label, a call to the print primitive, and a stack-cleanup line,
in that order. -/
theorem end_to_end_scenario_A (dl tl : List (Option String)) (n : Nat) :
    ∃ lexs toks sent,
      scan "o sitelen e \"toki!\".".toList = some lexs ∧
      evaluate lexs = toks ∧
      parse toks = some [sent] ∧
      compile_sentence sent ⟨dl, n⟩ ⟨tl⟩ =
        some (⟨dl ++ [some ("LITERAL_" ++ toString n ++ " db \"toki!\", 0")], n + 1⟩,
              ⟨tl ++ [some ("push    LITERAL_" ++ toString n),
                      some "call    _printf",
                      some "add     esp, 4"]⟩) := by
  refine ⟨["o", "sitelen", "e", "\"toki!\"", "."],
    [.keyword KEYWORD_O, .keyword KEYWORD_SITELEN, .keyword KEYWORD_E,
     .literal LITERAL_STRING "toki!", .separator SEPARATOR_PERIOD],
    ⟨NOUNPHRASE_DEFAULT,
     ⟨.keyword KEYWORD_SITELEN, [],
      ⟨.literal LITERAL_STRING "toki!", [], PREPPHRASELIST_DEFAULT⟩⟩⟩,
    by decide, by decide, by decide, ?_⟩
  simp [compile_sentence, NOUNPHRASE_DEFAULT, PREPPHRASELIST_DEFAULT, TOKEN_DEFAULT,
    tokType, is_keyword, is_literal, tokCharData, KEYWORD_SITELEN, LITERAL_STRING,
    String.append_assoc]

/-- C2 counterexample: there is no number-scanning state in `scan`; the
digit `5` reaches the idle-mode error branch, so scanning `x li 5.` (and
`x li 5.5.`) fails fatally instead of yielding the claimed lexemes. -/
theorem scan_number_cex :
    scan "x li 5.".toList = none ∧
    scan "x li 5.5.".toList = none ∧
    scan "x li 5.".toList ≠ some ["x", "li", "5", "."] ∧
    scan "x li 5.5.".toList ≠ some ["x", "li", "5.5", "."] := by
  decide

/-- C2 (amended): a digit encountered in the scanner's idle state is a
fatal scan error (the scanner has no number state), so scanning
`x li 5.` and `x li 5.5.` both fail fatally with no lexemes produced. -/
theorem scan_digit_is_error (buf rest : List Char) (c : Char)
    (h : c_isdigit c = true) :
    scanAux .UNKNOWN buf (c :: rest) = none ∧
    scan "x li 5.".toList = none ∧
    scan "x li 5.5.".toList = none := by
  obtain ⟨hs, hc, ha, hq, hp⟩ := c_isdigit_guards c h
  refine ⟨?_, by decide, by decide⟩
  simp [scanAux, hs, hc, ha, hq, hp]

theorem scan_digit_is_error_witness :
    c_isdigit '5' = true ∧ scanAux .UNKNOWN [] ['5'] = none := by
  have h := scan_digit_is_error [] [] '5' (by decide)
  exact ⟨by decide, h.1⟩

/-- C3 counterexample: the lexeme `a!` matches none of the classification
patterns, yet `evaluate` does not fail: the lexeme is silently dropped from
the token sequence and classification continues with the next lexeme. -/
theorem evaluate_drop_cex :
    classify "a!" = none ∧
    evaluate ["x", "a!", "li"] = [Token.identifier "x", Token.keyword KEYWORD_LI] := by
  decide

/-- C3 (amended): a lexeme matching none of the classification patterns is
silently dropped: evaluate of a sequence containing it equals evaluate of
the sequence with it removed, and no error is raised (evaluate is total). -/
theorem evaluate_silent_drop (pre post : List String) (lex : String)
    (h : classify lex = none) :
    evaluate (pre ++ lex :: post) = evaluate (pre ++ post) := by
  simp [evaluate, List.filterMap_append, List.filterMap_cons, h]

theorem evaluate_silent_drop_witness :
    evaluate (["x"] ++ "a!" :: ["li"]) = evaluate (["x"] ++ ["li"]) :=
  evaluate_silent_drop ["x"] ["li"] "a!" (by decide)

/-- C4 counterexample: a sentence with absent subject and the assign verb
`kama` matches none of the enumerated compile_sentence cases, yet
compile_sentence returns normally and emits nothing, rather than failing
fatally. -/
theorem compile_dispatch_cex :
    compile_sentence
      ⟨NOUNPHRASE_DEFAULT, { VERBPHRASE_DEFAULT with verb := .keyword KEYWORD_KAMA }⟩
      ⟨[], 0⟩ ⟨[]⟩ = some (⟨[], 0⟩, ⟨[]⟩) := by
  decide

/-- C4 (amended): compile_sentence's dispatch is not exhaustive: when the
subject is absent and the (present) verb is not the print keyword, and when
the subject is present and the (present) verb is not the assign keyword,
compile_sentence silently does nothing (both sections are returned
unchanged) instead of failing. -/
theorem compile_dispatch_fallthrough (s : Sentence) (data : SectionData)
    (text : SectionText) (hv : tokType s.pred.verb ≠ .TOKEN_NULL) :
    (tokType s.subj.noun = .TOKEN_NULL →
      is_keyword s.pred.verb KEYWORD_SITELEN = false →
      compile_sentence s data text = some (data, text)) ∧
    (tokType s.subj.noun ≠ .TOKEN_NULL →
      is_keyword s.pred.verb KEYWORD_KAMA = false →
      compile_sentence s data text = some (data, text)) := by
  constructor
  · intro h1 h2
    simp [compile_sentence, h1, h2, hv]
  · intro h1 h2
    simp [compile_sentence, h1, h2, hv]

theorem compile_dispatch_fallthrough_witness :
    compile_sentence
      ⟨NOUNPHRASE_DEFAULT, { VERBPHRASE_DEFAULT with verb := .keyword KEYWORD_SAMA }⟩
      ⟨[], 0⟩ ⟨[]⟩ = some (⟨[], 0⟩, ⟨[]⟩) ∧
    compile_sentence
      ⟨{ NOUNPHRASE_DEFAULT with noun := .identifier "x" },
       { VERBPHRASE_DEFAULT with verb := .keyword KEYWORD_SITELEN }⟩
      ⟨[], 0⟩ ⟨[]⟩ = some (⟨[], 0⟩, ⟨[]⟩) :=
  ⟨(compile_dispatch_fallthrough _ _ _ (by decide)).1 (by decide) (by decide),
   (compile_dispatch_fallthrough _ _ _ (by decide)).2 (by decide) (by decide)⟩

/-- C5: evaluation at the failing input `x sin y .`: the sin branch writes
the preposition through the prepositional-phrase list's `list` pointer,
which is never allocated anywhere in parse (and whose size is never
incremented), so parsing aborts instead of appending a PrepPhrase entry and
transitioning to Prepositional mode. -/
theorem parse_sin_null_write :
    parse [Token.identifier "x", Token.keyword KEYWORD_SIN,
           Token.identifier "y", Token.separator SEPARATOR_PERIOD] = none ∧
    pplPrepWrite Mode.PHRASE_EN
      { SENTENCE_DEFAULT with
        subj := { NOUNPHRASE_DEFAULT with noun := .identifier "x" } }
      (Token.keyword KEYWORD_SIN) = none := by
  decide

/-- C10: for a sentence with a present identifier subject head, the assign
verb `kama` and a string-literal object head, compile_sentence appends
exactly one line to the data section's line list (leaving its literal
counter unchanged) and leaves the text section entirely unchanged. -/
theorem compile_assignment_effects (name payload : String)
    (sadj : List Token) (sppl : PrepPhraseList) (vadv : List Token)
    (oadj : List Token) (oppl : PrepPhraseList)
    (data : SectionData) (text : SectionText) :
    compile_sentence
      ⟨⟨.identifier name, sadj, sppl⟩,
       ⟨.keyword KEYWORD_KAMA, vadv,
        ⟨.literal LITERAL_STRING payload, oadj, oppl⟩⟩⟩
      data text =
      some ({ data with lines := data.lines ++
               [some ("VARIABLE_" ++ name ++ " db \"" ++ payload ++ "\", 0")] },
            text) := by
  simp [compile_sentence, tokType, is_keyword, is_literal, tokCharData,
    KEYWORD_KAMA, KEYWORD_SITELEN, LITERAL_STRING, String.append_assoc]

/-- C8: every lexeme equal to a keyword string is classified as a Keyword
token carrying that keyword's identity (the index of that string in the
keyword table), never as an Identifier, even though each keyword string is
also a valid identifier shape; the keyword table is consulted first. -/
theorem keyword_precedence (lex : String) (h : lex ∈ KEYWORDS) :
    is_ident_shape lex = true ∧
    classify lex = some (Token.keyword (KEYWORDS.indexOf lex)) ∧
    KEYWORDS.get? (KEYWORDS.indexOf lex) = some lex ∧
    ∀ name, classify lex ≠ some (Token.identifier name) := by
  have h1 : is_ident_shape lex = true ∧
      classify lex = some (Token.keyword (KEYWORDS.indexOf lex)) ∧
      KEYWORDS.get? (KEYWORDS.indexOf lex) = some lex := by
    simp only [KEYWORDS, List.mem_cons, List.not_mem_nil, or_false] at h
    rcases h with rfl | rfl | rfl | rfl | rfl | rfl | rfl | rfl <;>
      exact ⟨by decide, by decide, by decide⟩
  refine ⟨h1.1, h1.2.1, h1.2.2, ?_⟩
  intro name hcon
  rw [h1.2.1] at hcon
  simp at hcon

theorem keyword_precedence_witness :
    "sitelen" ∈ KEYWORDS ∧ is_ident_shape "sitelen" = true ∧
    classify "sitelen" = some (Token.keyword (KEYWORDS.indexOf "sitelen")) ∧
    KEYWORDS.get? (KEYWORDS.indexOf "sitelen") = some "sitelen" ∧
    classify "sitelen" ≠ some (Token.identifier "sitelen") := by
  have h := keyword_precedence "sitelen" (by decide)
  exact ⟨by decide, h.1, h.2.1, h.2.2.1, h.2.2.2 "sitelen"⟩

/-! Scanner behavior at end of input (for C9): string mode never emits and
never errors when no closing quote arrives, while text mode flushes the
pending word when the terminating NUL (a control character) is reached.
The step lemmas below are single unfoldings of the scanner loop. -/

theorem scanAux_nil (m : ScanMode) (buf : List Char) :
    scanAux m buf [] = some [] := by
  cases m <;> rfl

theorem scanAux_string_step (buf cs2 : List Char) (c : Char)
    (hc : c ≠ '\\') (hcq : c ≠ '"') :
    scanAux .STRING buf (c :: cs2) = scanAux .STRING (buf ++ [c]) cs2 := by
  rw [scanAux.eq_def]
  simp [hc, hcq]

theorem scanAux_string_esc (buf cs3 : List Char) (d : Char) :
    scanAux .STRING buf ('\\' :: d :: cs3) = scanAux .STRING (buf ++ ['\\', d]) cs3 := by
  rw [scanAux.eq_def]
  simp

theorem scanAux_text_step (buf rest : List Char) (c : Char)
    (hs : c_isspace c = false) (hc : c_iscntrl c = false) (hp : c ≠ '.') :
    scanAux .TEXT buf (c :: rest) = scanAux .TEXT (buf ++ [c]) rest := by
  rw [scanAux.eq_def]
  simp [hs, hc, hp]

theorem scanAux_text_end (buf : List Char) :
    scanAux .TEXT buf ['\x00'] = some [String.mk buf] := by
  rw [scanAux.eq_def]
  simp [scanAux_nil]
  decide

theorem scanAux_unknown_alpha (buf rest : List Char) (c : Char)
    (ha : c_isalpha c = true) :
    scanAux .UNKNOWN buf (c :: rest) = scanAux .TEXT [c] rest := by
  obtain ⟨hs, hcc, _⟩ := c_isalpha_guards c ha
  rw [scanAux.eq_def]
  simp [hs, hcc, ha]

theorem scanAux_unknown_quote (buf rest : List Char) :
    scanAux .UNKNOWN buf ('"' :: rest) = scanAux .STRING ['"'] rest := by
  rw [scanAux.eq_def]
  simp [c_isspace, c_iscntrl, c_isalpha]

theorem scanAux_string_unterminated :
    ∀ (n : Nat) (cs buf : List Char), cs.length ≤ n → '"' ∉ cs →
      scanAux .STRING buf (cs ++ ['\x00']) = some [] := by
  intro n
  induction n with
  | zero =>
    intro cs buf hlen hq
    have h0 : cs = [] := List.length_eq_zero.mp (Nat.le_zero.mp hlen)
    subst h0
    rw [List.nil_append, scanAux_string_step buf [] '\x00' (by decide) (by decide),
      scanAux_nil]
  | succ n ih =>
    intro cs buf hlen hq
    match cs with
    | [] =>
      rw [List.nil_append, scanAux_string_step buf [] '\x00' (by decide) (by decide),
        scanAux_nil]
    | c :: cs2 =>
      by_cases hc : c = '\\'
      · subst hc
        match cs2 with
        | [] =>
          rw [show (['\\'] : List Char) ++ ['\x00'] = '\\' :: '\x00' :: [] from rfl,
            scanAux_string_esc, scanAux_nil]
        | d :: cs3 =>
          have hq3 : '"' ∉ cs3 := fun hm => hq (by simp [hm])
          have hlen3 : cs3.length ≤ n := by
            simp only [List.length_cons] at hlen
            omega
          rw [show ('\\' :: d :: cs3) ++ ['\x00'] = '\\' :: d :: (cs3 ++ ['\x00']) from rfl,
            scanAux_string_esc]
          exact ih cs3 (buf ++ ['\\', d]) hlen3 hq3
      · by_cases hcq : c = '"'
        · exact absurd (by simp [hcq]) hq
        · have hq2 : '"' ∉ cs2 := fun hm => hq (by simp [hm])
          have hlen2 : cs2.length ≤ n := by
            simp only [List.length_cons] at hlen
            omega
          rw [List.cons_append, scanAux_string_step buf _ c hc hcq]
          exact ih cs2 (buf ++ [c]) hlen2 hq2

theorem scanAux_text_word :
    ∀ (ws buf : List Char), (∀ c ∈ ws, c_isalpha c = true) →
      scanAux .TEXT buf (ws ++ ['\x00']) = some [String.mk (buf ++ ws)] := by
  intro ws
  induction ws with
  | nil =>
    intro buf h
    rw [List.nil_append, scanAux_text_end, List.append_nil]
  | cons c ws2 ih =>
    intro buf h
    obtain ⟨hs, hc, hp⟩ := c_isalpha_guards c (h c (by simp))
    have h2 : ∀ d ∈ ws2, c_isalpha d = true := fun d hd => h d (by simp [hd])
    rw [List.cons_append, scanAux_text_step buf _ c hs hc hp, ih (buf ++ [c]) h2]
    simp

/-- C9: when the input ends inside an unterminated string literal, scan
returns normally with no lexeme emitted for the partial string and no
error; by contrast a word at end of input is still emitted as a lexeme. -/
theorem scan_unterminated_string_vs_word (cs ws : List Char)
    (hq : '"' ∉ cs) (hw : ws ≠ []) (ha : ∀ c ∈ ws, c_isalpha c = true) :
    scan ('"' :: cs) = some [] ∧ scan ws = some [String.mk ws] := by
  constructor
  · show scanAux .UNKNOWN [] (('"' :: cs) ++ ['\x00']) = some []
    rw [List.cons_append, scanAux_unknown_quote]
    exact scanAux_string_unterminated cs.length cs ['"'] le_rfl hq
  · match ws, hw with
    | c :: ws2, _ =>
      show scanAux .UNKNOWN [] ((c :: ws2) ++ ['\x00']) = some [String.mk (c :: ws2)]
      rw [List.cons_append, scanAux_unknown_alpha [] _ c (ha c (by simp)),
        scanAux_text_word ws2 [c] (fun d hd => ha d (by simp [hd]))]
      rfl

theorem scan_unterminated_string_vs_word_witness :
    scan ('"' :: "abc".toList) = some [] ∧
    scan "abc".toList = some [String.mk "abc".toList] :=
  scan_unterminated_string_vs_word "abc".toList "abc".toList
    (by decide) (by decide) (by decide)

/-! Parser loop facts (for C6 and C7): splitting a run, what each step
emits, and the state reset performed by the separator branch. -/

theorem parseRun_append (st : PState) (xs ys : List Token) :
    parseRun st (xs ++ ys) =
      (parseRun st xs).bind (fun r =>
        (parseRun r.1 ys).map (fun r2 => (r2.1, r.2 ++ r2.2))) := by
  induction xs generalizing st with
  | nil =>
    cases hys : parseRun st ys with
    | none => simp [parseRun, hys]
    | some r2 => simp [parseRun, hys]
  | cons t xs ih =>
    cases hstep : parseStep st t with
    | none => simp [parseRun, hstep]
    | some r =>
      cases r with
      | mk st2 em =>
        simp only [List.cons_append, parseRun, hstep, List.append_eq]
        rw [ih st2]
        cases hxs : parseRun st2 xs with
        | none => simp
        | some r2 =>
          cases hys : parseRun r2.1 ys with
          | none => simp [hys]
          | some r3 => simp [hys, List.append_assoc]

theorem parseStep_buffered (st : PState) (t : Token)
    (h : buffered_token t = true) :
    parseStep st t = some ({ st with buffer := st.buffer ++ [t] }, []) := by
  simp only [buffered_token, Bool.not_eq_true', Bool.or_eq_false_iff] at h
  obtain ⟨⟨⟨⟨h1, h2⟩, h3⟩, h4⟩, h5⟩ := h
  simp [parseStep, h1, h2, h3, h4, h5]

theorem parseRun_buffered :
    ∀ (pre : List Token) (st : PState), (∀ t ∈ pre, buffered_token t = true) →
      parseRun st pre = some ({ st with buffer := st.buffer ++ pre }, []) := by
  intro pre
  induction pre with
  | nil =>
    intro st h
    simp [parseRun]
  | cons t pre ih =>
    intro st h
    simp only [parseRun, parseStep_buffered st t (h t (by simp)),
      ih { st with buffer := st.buffer ++ [t] } (fun x hx => h x (by simp [hx]))]
    simp [List.append_assoc]

theorem parseStep_emission (st : PState) (t : Token) (r : PState × List Sentence)
    (hsep : is_seperator t SEPARATOR_PERIOD = false)
    (hstep : parseStep st t = some r) : r.2 = [] := by
  unfold parseStep at hstep
  simp only [hsep] at hstep
  repeat' split at hstep
  all_goals try simp_all
  all_goals first
    | (obtain ⟨a, ha, hr⟩ := hstep
       rw [← hr])
    | rw [← hstep]

theorem parseStep_sep (st : PState) (r : PState × List Sentence)
    (hstep : parseStep st (Token.separator SEPARATOR_PERIOD) = some r) :
    r.1 = PSTATE_INIT ∧ ∃ s2, flush st.mode st.s st.buffer = some s2 ∧ r.2 = [s2] := by
  simp [parseStep, is_keyword, is_seperator] at hstep
  obtain ⟨s2, hfl, hf⟩ := hstep
  refine ⟨?_, s2, hfl, ?_⟩
  · rw [← hf]
    rfl
  · rw [← hf]

theorem parseRun_no_sep (extra : List Token)
    (hx : ∀ tk ∈ extra, is_seperator tk SEPARATOR_PERIOD = false) :
    ∀ (st : PState) (r : PState × List Sentence),
      parseRun st extra = some r → r.2 = [] := by
  induction extra with
  | nil =>
    intro st r h
    simp only [parseRun] at h
    rw [← Option.some.inj h]
  | cons t extra ih =>
    intro st r h
    simp only [parseRun] at h
    cases hstep : parseStep st t with
    | none => rw [hstep] at h; simp at h
    | some r1 =>
      rw [hstep] at h
      have hem : r1.2 = [] := parseStep_emission st t r1 (hx t (by simp)) hstep
      obtain ⟨r2, hrun2, hf⟩ := Option.map_eq_some'.mp h
      have hr2 : r2.2 = [] := ih (fun tk htk => hx tk (by simp [htk])) r1.1 r2 hrun2
      rw [← hf]
      simp [hem, hr2]

theorem parse_eq_some (ts : List Token) (out : List Sentence) :
    parse ts = some out ↔ ∃ st, parseRun PSTATE_INIT ts = some (st, out) := by
  simp only [parse, Option.map_eq_some']
  constructor
  · rintro ⟨r, hr, rfl⟩
    exact ⟨r.1, by rw [hr]⟩
  · rintro ⟨st, hst⟩
    exact ⟨(st, out), hst, rfl⟩

theorem parseRun_single_sentence (ts ts0 : List Token) (s : Sentence)
    (hts : ts = ts0 ++ [Token.separator SEPARATOR_PERIOD])
    (hp : parse ts = some [s]) :
    parseRun PSTATE_INIT ts = some (PSTATE_INIT, [s]) := by
  obtain ⟨stf, hrun⟩ := (parse_eq_some ts [s]).mp hp
  suffices hsuff : stf = PSTATE_INIT by
    rw [hsuff] at hrun
    exact hrun
  rw [hts, parseRun_append] at hrun
  cases hpre : parseRun PSTATE_INIT ts0 with
  | none => rw [hpre] at hrun; simp at hrun
  | some rp =>
    rw [hpre] at hrun
    simp only [Option.some_bind] at hrun
    cases hstep : parseStep rp.1 (Token.separator SEPARATOR_PERIOD) with
    | none => simp only [parseRun, hstep] at hrun; simp at hrun
    | some r =>
      have hr := parseStep_sep rp.1 r hstep
      simp only [parseRun, hstep] at hrun
      simp at hrun
      rw [← hrun.1]
      exact hr.1

theorem parseRun_flatten (ps : List (List Token × Sentence))
    (h : ∀ p ∈ ps, (∃ ts0, p.1 = ts0 ++ [Token.separator SEPARATOR_PERIOD]) ∧
      parse p.1 = some [p.2]) :
    parseRun PSTATE_INIT (ps.map Prod.fst).flatten =
      some (PSTATE_INIT, ps.map Prod.snd) := by
  induction ps with
  | nil => rfl
  | cons p ps ih =>
    obtain ⟨⟨ts0, hts0⟩, hp⟩ := h p (by simp)
    have hone := parseRun_single_sentence p.1 ts0 p.2 hts0 hp
    have hrest := ih (fun q hq => h q (by simp [hq]))
    simp only [List.map_cons, List.flatten_cons]
    rw [parseRun_append, hone]
    simp [hrest]

/-- C6: for every list of complete, well-formed, period-terminated
sentences, parse of their concatenation returns exactly one Sentence per
sentence, in order, each equal to the independent single-sentence parse of
its own tokens; appending trailing tokens containing no separator never
contributes a further Sentence to the output (either parsing aborts or the
output is unchanged). -/
theorem parse_sentence_segmentation (ps : List (List Token × Sentence))
    (extra : List Token)
    (h : ∀ p ∈ ps, (∃ ts0, p.1 = ts0 ++ [Token.separator SEPARATOR_PERIOD]) ∧
      parse p.1 = some [p.2])
    (hx : ∀ tk ∈ extra, is_seperator tk SEPARATOR_PERIOD = false) :
    parse (ps.map Prod.fst).flatten = some (ps.map Prod.snd) ∧
    (parse ((ps.map Prod.fst).flatten ++ extra) = none ∨
     parse ((ps.map Prod.fst).flatten ++ extra) = some (ps.map Prod.snd)) := by
  have hflat := parseRun_flatten ps h
  constructor
  · unfold parse
    rw [hflat]
    rfl
  · unfold parse
    rw [parseRun_append, hflat]
    cases hex : parseRun PSTATE_INIT extra with
    | none => left; simp [hex]
    | some r =>
      obtain ⟨st2, em⟩ := r
      have hr : em = [] := parseRun_no_sep extra hx PSTATE_INIT (st2, em) hex
      subst hr
      right
      simp [hex]

theorem parse_sentence_segmentation_witness :
    parse [Token.identifier "x", Token.separator SEPARATOR_PERIOD] =
      some [⟨⟨.identifier "x", [], PREPPHRASELIST_DEFAULT⟩, VERBPHRASE_DEFAULT⟩] := by
  have h := parse_sentence_segmentation
    [([Token.identifier "x", Token.separator SEPARATOR_PERIOD],
      ⟨⟨.identifier "x", [], PREPPHRASELIST_DEFAULT⟩, VERBPHRASE_DEFAULT⟩)]
    [Token.identifier "y"]
    (by
      intro p hp
      simp only [List.mem_singleton] at hp
      subst hp
      exact ⟨⟨[Token.identifier "x"], rfl⟩, by decide⟩)
    (by decide)
  simpa using h.1

/-- C7: parse fails fatally on the object-marker keyword `e` while still in
Subject mode (no verb-introducing keyword seen yet, only buffered tokens),
and fails fatally on the prepositional-marker keyword `sin` whenever the
pending phrase buffer is empty. -/
theorem parse_marker_errors
    (pre1 rest1 : List Token) (h1 : ∀ t ∈ pre1, buffered_token t = true)
    (pre2 rest2 : List Token) (r2 : PState × List Sentence)
    (h2 : parseRun PSTATE_INIT pre2 = some r2) (h3 : r2.1.buffer = []) :
    parse (pre1 ++ Token.keyword KEYWORD_E :: rest1) = none ∧
    parse (pre2 ++ Token.keyword KEYWORD_SIN :: rest2) = none := by
  constructor
  · unfold parse
    rw [parseRun_append, parseRun_buffered pre1 PSTATE_INIT h1]
    have hstep : parseStep { PSTATE_INIT with buffer := PSTATE_INIT.buffer ++ pre1 }
        (Token.keyword KEYWORD_E) = none := by
      simp [parseStep, is_keyword, is_seperator, KEYWORD_E, KEYWORD_O, KEYWORD_LI,
        KEYWORD_SIN, PSTATE_INIT]
    simp [parseRun, hstep]
  · unfold parse
    rw [parseRun_append, h2]
    have hstep : parseStep r2.1 (Token.keyword KEYWORD_SIN) = none := by
      simp [parseStep, is_keyword, is_seperator, KEYWORD_SIN, KEYWORD_O, KEYWORD_LI,
        KEYWORD_E, h3]
    simp [parseRun, hstep]

theorem parse_marker_errors_witness :
    parse ([Token.identifier "x"] ++ Token.keyword KEYWORD_E :: []) = none ∧
    parse ([] ++ Token.keyword KEYWORD_SIN :: []) = none :=
  parse_marker_errors [Token.identifier "x"] [] (by decide) [] [] (PSTATE_INIT, []) rfl rfl

end Toki
